import Mathlib

/-
Verification of the cloud-testenv-broker server (src/broker/server.go) against
its natural-language specification.

The embedding below translates the broker implementation in
src/broker/server.go together with the message types it operates on
(declared in the proto file src/unnamed/part_001: SpecId, CommandLine,
EmulatorSpec, CreateEmulatorSpecRequest, ResolveRequest, ResolveResponse).

Modelling conventions:
- The Go map `map[string]*emulator` is represented as an association list
  with first-match lookup; the server only inserts a key when it is absent,
  so lookup semantics coincide with Go map semantics.
- gRPC errors `grpc.Errorf(codes.X, ...)` are represented as a ServerError
  value carrying the code and the message; a plain `fmt.Errorf` error has
  no gRPC code attached, which `grpc.Code` reports as Unknown, modelled by
  `Code.unknown`.
- Every RPC handler is a function from the server state and the request to
  the pair (result, new server state); on an error path the Go code never
  mutates the state, and the returned state is the input state.
- `emulator.run` and `outputLogPrefixer` only log; they never touch the
  spec, the cmd handle or the state field, so they are not modelled.
- The two fallible pipe creations in `emulator.start` (StdoutPipe,
  StderrPipe) are modelled by a SpawnEnv record of two booleans saying
  whether each pipe creation succeeds; the Go error paths return before
  any field of the emulator record is assigned.
- When `emu.spec.CommandLine` is nil, the Go `start` dereferences a nil
  pointer and crashes before assigning any field; this aborting path is
  modelled as an error outcome that leaves the record unchanged.
-/

namespace Broker

/-- Proto message CommandLine: a binary path and its arguments. -/
structure CommandLine where
  path : String
  args : List String
deriving DecidableEq

/-- Proto message EmulatorSpec.  The command_line field is a message
pointer in Go, hence optional. -/
structure EmulatorSpec where
  id : String
  targetPattern : List String
  commandLine : Option CommandLine
  startOnDemand : Bool
  resolvedTarget : String
deriving DecidableEq

/-- Proto message CreateEmulatorSpecRequest. -/
structure CreateEmulatorSpecRequest where
  specId : String
  spec : EmulatorSpec
deriving DecidableEq

/-- Proto message ResolveRequest. -/
structure ResolveRequest where
  target : String
deriving DecidableEq

/-- Proto message ResolveResponse. -/
structure ResolveResponse where
  target : String
deriving DecidableEq

/-- Emulator state constant OFFLINE (server.go line 40). -/
def OFFLINE : String := "offline"

/-- Emulator state constant STARTING (server.go line 41). -/
def STARTING : String := "starting"

/-- Emulator state constant ONLINE (server.go line 42). -/
def ONLINE : String := "online"

/-- The child process handle built by exec.Command(path, args...): all the
broker ever does with it is create it and signal it, so only its identity
matters here. -/
structure Cmd where
  path : String
  args : List String
deriving DecidableEq

/-- The per-emulator record (server.go lines 46-50): spec, child process
handle (a nil-able pointer in Go) and state string. -/
structure emulator where
  spec : EmulatorSpec
  cmd : Option Cmd
  state : String
deriving DecidableEq

/-- newEmulator (server.go lines 52-54): a fresh record is OFFLINE with no
child handle. -/
def newEmulator (spec : EmulatorSpec) : emulator :=
  { spec := spec, cmd := none, state := OFFLINE }

/-- Success of the two pipe creations inside emulator.start. -/
structure SpawnEnv where
  stdoutPipeOk : Bool
  stderrPipeOk : Bool
deriving DecidableEq

/-- emulator.start (server.go lines 66-93).  Rejects any state other than
OFFLINE; on success assigns the child handle and moves to STARTING.  Every
error path returns before any field is assigned. -/
def emulator.start (emu : emulator) (env : SpawnEnv) : Except String emulator :=
  if emu.state ≠ OFFLINE then
    Except.error ("Emulator \"" ++ emu.spec.id ++
      "\" cannot be started because it is in state \"" ++ emu.state ++ "\".")
  else
    match emu.spec.commandLine with
    | none =>
      -- Go dereferences the nil CommandLine pointer here and crashes
      -- before mutating the record; modelled as an aborting error.
      Except.error "nil CommandLine"
    | some cl =>
      if env.stdoutPipeOk then
        if env.stderrPipeOk then
          Except.ok { emu with
            cmd := some { path := cl.path, args := cl.args }, state := STARTING }
        else
          Except.error "stderr pipe creation failed"
      else
        Except.error "stdout pipe creation failed"

/-- emulator.stop (server.go lines 95-102), with the guard exactly as
written in the source: `state != STARTING || state != ONLINE`.  The success
branch signals the child and sets the state to OFFLINE (without clearing
the cmd handle). -/
def emulator.stop (emu : emulator) : Except String emulator :=
  if emu.state ≠ STARTING ∨ emu.state ≠ ONLINE then
    Except.error ("Emulator \"" ++ emu.spec.id ++
      "\" cannot be stopped because it is in state \"" ++ emu.state ++ "\".")
  else
    Except.ok { emu with state := OFFLINE }

/-- gRPC status codes used by the server, plus `unknown` for plain
fmt.Errorf errors that carry no code. -/
inductive Code where
  | alreadyExists
  | notFound
  | failedPrecondition
  | invalidArgument
  | unknown
deriving DecidableEq

/-- An error returned by an RPC handler: a status code and a message. -/
structure ServerError where
  code : Code
  msg : String
deriving DecidableEq

/-- The result of an RPC handler. -/
abbrev RpcResult (α : Type) := Except ServerError α

/-- The status code of a result, if it is an error. -/
def errCode {α : Type} (r : RpcResult α) : Option Code :=
  match r with
  | Except.error e => some e.code
  | Except.ok _ => none

/-- The server state (server.go lines 104-107): the registry of emulator
records keyed by spec id.  The mutex only serialises access and is not part
of the sequential model. -/
structure server where
  emulators : List (String × emulator)
deriving DecidableEq

/-- New (server.go lines 109-112): a server with an empty registry. -/
def New : server :=
  { emulators := [] }

/-- First-match lookup in the registry, the model of `s.emulators[id]`. -/
def mapLookup (m : List (String × emulator)) (k : String) : Option emulator :=
  match m with
  | [] => none
  | p :: rest => if p.1 = k then some p.2 else mapLookup rest k

/-- Replacement of the record stored under a key, the model of mutating the
record a Go map entry points to. -/
def mapUpdate (m : List (String × emulator)) (k : String) (v : emulator) :
    List (String × emulator) :=
  m.map (fun q => if q.1 = k then (k, v) else q)

/-- server.CreateEmulatorSpec (server.go lines 116-127): AlreadyExists when
the id is present (with no comparison of the stored and submitted values),
otherwise stores a fresh OFFLINE record and echoes the submitted spec.  No
validation of the id, the patterns or the command is performed. -/
def server.CreateEmulatorSpec (s : server) (req : CreateEmulatorSpecRequest) :
    RpcResult EmulatorSpec × server :=
  match mapLookup s.emulators req.specId with
  | some _ =>
    (Except.error
       { code := Code.alreadyExists
       , msg := "Emulator spec \"" ++ req.specId ++ "\" already exists." }, s)
  | none =>
    (Except.ok req.spec,
     { emulators := (req.specId, newEmulator req.spec) :: s.emulators })

/-- server.GetEmulatorSpec (server.go lines 130-138). -/
def server.GetEmulatorSpec (s : server) (specId : String) :
    RpcResult EmulatorSpec × server :=
  match mapLookup s.emulators specId with
  | none =>
    (Except.error
       { code := Code.notFound
       , msg := "Emulator spec \"" ++ specId ++ "\" doesn't exist." }, s)
  | some emu => (Except.ok emu.spec, s)

/-- server.UpdateEmulatorSpec (server.go lines 141-151): wholesale
replacement of the stored spec with the submitted one (`emu.spec = spec`);
no field of the submitted spec is merged with or ignored in favour of the
stored one. -/
def server.UpdateEmulatorSpec (s : server) (spec : EmulatorSpec) :
    RpcResult EmulatorSpec × server :=
  match mapLookup s.emulators spec.id with
  | none =>
    (Except.error
       { code := Code.notFound
       , msg := "Emulator spec \"" ++ spec.id ++ "\" doesn't exist." }, s)
  | some emu =>
    (Except.ok spec,
     { emulators := mapUpdate s.emulators spec.id { emu with spec := spec } })

/-- server.DeleteEmulatorSpec (server.go lines 154-163). -/
def server.DeleteEmulatorSpec (s : server) (specId : String) :
    RpcResult Unit × server :=
  match mapLookup s.emulators specId with
  | none =>
    (Except.error
       { code := Code.notFound
       , msg := "Emulator spec \"" ++ specId ++ "\" doesn't exist." }, s)
  | some _ =>
    (Except.ok (), { emulators := s.emulators.filter (fun q => !(q.1 == specId)) })

/-- server.StartEmulator (server.go lines 189-205): a missing id is
rejected with codes.FailedPrecondition (line 198); an error from
emulator.start is returned as-is (no gRPC code). -/
def server.StartEmulator (s : server) (env : SpawnEnv) (specId : String) :
    RpcResult Unit × server :=
  match mapLookup s.emulators specId with
  | none =>
    (Except.error
       { code := Code.failedPrecondition
       , msg := "Emulator \"" ++ specId ++ "\" doesn't exist." }, s)
  | some emu =>
    match emu.start env with
    | Except.error m => (Except.error { code := Code.unknown, msg := m }, s)
    | Except.ok emu2 =>
      (Except.ok (), { emulators := mapUpdate s.emulators specId emu2 })

/-- server.StopEmulator (server.go lines 207-220): a missing id is rejected
with codes.FailedPrecondition (line 214); an error from emulator.stop is
returned as-is (no gRPC code). -/
def server.StopEmulator (s : server) (specId : String) :
    RpcResult Unit × server :=
  match mapLookup s.emulators specId with
  | none =>
    (Except.error
       { code := Code.failedPrecondition
       , msg := "Emulator \"" ++ specId ++ "\" doesn't exist." }, s)
  | some emu =>
    match emu.stop with
    | Except.error m => (Except.error { code := Code.unknown, msg := m }, s)
    | Except.ok emu2 =>
      (Except.ok (), { emulators := mapUpdate s.emulators specId emu2 })

/-- server.Resolve (server.go lines 230-251): the whole matching loop is
commented out in the source and the function unconditionally returns
`fmt.Errorf("%s not found", req.Target)` without touching the registry. -/
def server.Resolve (s : server) (req : ResolveRequest) :
    RpcResult ResolveResponse × server :=
  (Except.error { code := Code.unknown, msg := req.target ++ " not found" }, s)

/-- The registry states reachable from a fresh server through any sequence
of the six state-bearing RPC handlers. -/
inductive Reachable : server → Prop where
  | init : Reachable New
  | createStep (s : server) (req : CreateEmulatorSpecRequest) :
      Reachable s → Reachable (s.CreateEmulatorSpec req).2
  | getStep (s : server) (specId : String) :
      Reachable s → Reachable (s.GetEmulatorSpec specId).2
  | updateStep (s : server) (spec : EmulatorSpec) :
      Reachable s → Reachable (s.UpdateEmulatorSpec spec).2
  | deleteStep (s : server) (specId : String) :
      Reachable s → Reachable (s.DeleteEmulatorSpec specId).2
  | startStep (s : server) (env : SpawnEnv) (specId : String) :
      Reachable s → Reachable (s.StartEmulator env specId).2
  | stopStep (s : server) (specId : String) :
      Reachable s → Reachable (s.StopEmulator specId).2

/-- The target patterns currently stored under an id (empty when the id is
absent); used to state properties of updates. -/
def storedPatterns (s : server) (specId : String) : List String :=
  match mapLookup s.emulators specId with
  | some emu => emu.spec.targetPattern
  | none => []

/-- The dummy spec used throughout the repository's own tests
(server.go lines 267-274). -/
def dummySpec : EmulatorSpec :=
  { id := "dummy"
  , targetPattern := ["pattern1", "pattern2"]
  , commandLine := some { path := "/exepath", args := ["arg1", "arg2"] }
  , startOnDemand := false
  , resolvedTarget := "" }

/-- A creation request for the dummy spec under its own id. -/
def dummyReq : CreateEmulatorSpecRequest :=
  { specId := "dummy", spec := dummySpec }

/-- The server after creating the dummy spec on a fresh server. -/
def s1 : server := (New.CreateEmulatorSpec dummyReq).2

/-- An update of the dummy spec submitting a single new pattern. -/
def updSpec : EmulatorSpec :=
  { dummySpec with targetPattern := ["newPattern"] }

/-- The server after updating the dummy spec with updSpec. -/
def s2 : server := (s1.UpdateEmulatorSpec updSpec).2

/-- A spec that is invalid in every way the specification names: malformed
id, non-compiling regular expression pattern, missing start command. -/
def badSpec : EmulatorSpec :=
  { id := "my/mistake"
  , targetPattern := ["["]
  , commandLine := none
  , startOnDemand := false
  , resolvedTarget := "" }

/-- A creation request for the invalid spec. -/
def badReq : CreateEmulatorSpecRequest :=
  { specId := "my/mistake", spec := badSpec }

/-- A creation request colliding with the dummy id but submitting a value
that differs from the stored one. -/
def dummyReq2 : CreateEmulatorSpecRequest :=
  { specId := "dummy", spec := badSpec }

/-- A spawn environment in which both pipe creations succeed. -/
def defaultEnv : SpawnEnv :=
  { stdoutPipeOk := true, stderrPipeOk := true }

/-- The server after additionally starting the dummy emulator. -/
def s1started : server := (s1.StartEmulator defaultEnv "dummy").2

/-- The started dummy record: STARTING, with a child handle. -/
def startedDummy : emulator :=
  { spec := dummySpec
  , cmd := some { path := "/exepath", args := ["arg1", "arg2"] }
  , state := STARTING }

/-- A successful lookup yields an entry of the registry list. -/
theorem mapLookup_mem {m : List (String × emulator)} {k : String} {e : emulator}
    (h : mapLookup m k = some e) : (k, e) ∈ m := by
  induction m with
  | nil => simp [mapLookup] at h
  | cons p rest ih =>
    by_cases hk : p.1 = k
    · simp only [mapLookup, if_pos hk, Option.some.injEq] at h
      have hp : p = (k, e) := by
        cases p with
        | mk a b => simp only [Prod.mk.injEq]; exact ⟨hk, h⟩
      rw [← hp]
      exact List.mem_cons_self p rest
    · simp only [mapLookup, if_neg hk] at h
      exact List.mem_cons_of_mem p (ih h)

/-- Every entry of an updated registry is the updated entry or an entry of
the original registry. -/
theorem mem_mapUpdate {m : List (String × emulator)} {k : String} {v : emulator}
    {q : String × emulator} (h : q ∈ mapUpdate m k v) : q = (k, v) ∨ q ∈ m := by
  unfold mapUpdate at h
  rcases List.mem_map.mp h with ⟨p, hp, he⟩
  by_cases hk : p.1 = k
  · rw [if_pos hk] at he
    exact Or.inl he.symm
  · rw [if_neg hk] at he
    exact Or.inr (he ▸ hp)

/-- Updating a key that is present makes lookup return the new record. -/
theorem mapLookup_mapUpdate_self {m : List (String × emulator)} {k : String}
    {e v : emulator} (h : mapLookup m k = some e) :
    mapLookup (mapUpdate m k v) k = some v := by
  induction m with
  | nil => simp [mapLookup] at h
  | cons p rest ih =>
    by_cases hk : p.1 = k
    · simp [mapLookup, mapUpdate, if_pos hk]
    · simp only [mapLookup, if_neg hk] at h
      simp only [mapUpdate, List.map_cons, if_neg hk]
      simp only [mapLookup, if_neg hk]
      exact ih h

/-- The guard of emulator.stop, exactly as written in the source, holds for
every state string: every state differs from STARTING or from ONLINE. -/
theorem stop_guard (st : String) : st ≠ STARTING ∨ st ≠ ONLINE := by
  by_cases h : st = STARTING
  · right
    rw [h]
    decide
  · exact Or.inl h

/-- emulator.stop always takes its error branch. -/
theorem stop_always_error (emu : emulator) :
    emu.stop = Except.error ("Emulator \"" ++ emu.spec.id ++
      "\" cannot be stopped because it is in state \"" ++ emu.state ++ "\".") := by
  unfold emulator.stop
  rw [if_pos (stop_guard emu.state)]

/-- StopEmulator never changes the server state. -/
theorem StopEmulator_preserves (s : server) (specId : String) :
    (s.StopEmulator specId).2 = s := by
  unfold server.StopEmulator
  cases h : mapLookup s.emulators specId with
  | none => rfl
  | some emu =>
    dsimp only
    rw [stop_always_error emu]

/-- GetEmulatorSpec never changes the server state. -/
theorem GetEmulatorSpec_preserves (s : server) (specId : String) :
    (s.GetEmulatorSpec specId).2 = s := by
  unfold server.GetEmulatorSpec
  cases h : mapLookup s.emulators specId <;> rfl

/-- A successful emulator.start yields a record in state STARTING carrying
a child handle. -/
theorem start_ok_shape (emu : emulator) (env : SpawnEnv) (emu2 : emulator)
    (h : emu.start env = Except.ok emu2) :
    emu2.state = STARTING ∧ ∃ c, emu2.cmd = some c := by
  unfold emulator.start at h
  by_cases h1 : emu.state ≠ OFFLINE
  · rw [if_pos h1] at h
    exact Except.noConfusion h
  · rw [if_neg h1] at h
    cases hcl : emu.spec.commandLine with
    | none =>
      rw [hcl] at h
      exact Except.noConfusion h
    | some cl =>
      rw [hcl] at h
      dsimp only at h
      by_cases h2 : env.stdoutPipeOk = true
      · rw [if_pos h2] at h
        by_cases h3 : env.stderrPipeOk = true
        · rw [if_pos h3] at h
          injection h with h4
          rw [← h4]
          exact ⟨rfl, ⟨{ path := cl.path, args := cl.args }, rfl⟩⟩
        · rw [if_neg h3] at h
          exact Except.noConfusion h
      · rw [if_neg h2] at h
        exact Except.noConfusion h

/-- Generic preservation of a per-record predicate along every reachable
state: it suffices that the predicate holds of fresh records, survives a
spec replacement, and holds of any record produced by a successful start. -/
theorem reachable_emuPred (P : emulator → Prop)
    (hNew : ∀ spec, P (newEmulator spec))
    (hUpd : ∀ (emu : emulator) (spec : EmulatorSpec), P emu → P { emu with spec := spec })
    (hStart : ∀ (emu : emulator) (env : SpawnEnv) (emu2 : emulator),
        emu.start env = Except.ok emu2 → P emu2)
    (s : server) (hs : Reachable s) :
    ∀ p ∈ s.emulators, P p.2 := by
  induction hs with
  | init =>
    intro p hp
    simp [New] at hp
  | createStep s req hs ih =>
    intro p hp
    unfold server.CreateEmulatorSpec at hp
    cases h : mapLookup s.emulators req.specId with
    | some emu =>
      rw [h] at hp
      exact ih p hp
    | none =>
      rw [h] at hp
      have hp2 : p ∈ (req.specId, newEmulator req.spec) :: s.emulators := hp
      rcases List.mem_cons.mp hp2 with hh | ht
      · rw [hh]
        exact hNew req.spec
      · exact ih p ht
  | getStep s specId hs ih =>
    intro p hp
    rw [GetEmulatorSpec_preserves] at hp
    exact ih p hp
  | updateStep s spec hs ih =>
    intro p hp
    unfold server.UpdateEmulatorSpec at hp
    cases h : mapLookup s.emulators spec.id with
    | none =>
      rw [h] at hp
      exact ih p hp
    | some emu =>
      rw [h] at hp
      have hp2 : p ∈ mapUpdate s.emulators spec.id { emu with spec := spec } := hp
      rcases mem_mapUpdate hp2 with hh | ht
      · rw [hh]
        exact hUpd emu spec (ih (spec.id, emu) (mapLookup_mem h))
      · exact ih p ht
  | deleteStep s specId hs ih =>
    intro p hp
    unfold server.DeleteEmulatorSpec at hp
    cases h : mapLookup s.emulators specId with
    | none =>
      rw [h] at hp
      exact ih p hp
    | some emu =>
      rw [h] at hp
      have hp2 : p ∈ s.emulators.filter (fun q => !(q.1 == specId)) := hp
      exact ih p (List.mem_filter.mp hp2).1
  | startStep s env specId hs ih =>
    intro p hp
    unfold server.StartEmulator at hp
    cases h : mapLookup s.emulators specId with
    | none =>
      rw [h] at hp
      exact ih p hp
    | some emu =>
      rw [h] at hp
      dsimp only at hp
      cases h2 : emu.start env with
      | error m =>
        rw [h2] at hp
        exact ih p hp
      | ok emu2 =>
        rw [h2] at hp
        have hp2 : p ∈ mapUpdate s.emulators specId emu2 := hp
        rcases mem_mapUpdate hp2 with hh | ht
        · rw [hh]
          exact hStart emu env emu2 h2
        · exact ih p ht
  | stopStep s specId hs ih =>
    intro p hp
    rw [StopEmulator_preserves] at hp
    exact ih p hp

/-- Claim C1: the claim says that Resolve with no matching rule succeeds
and echoes the input target.  The code never does: the matching loop in
server.Resolve is commented out and the handler unconditionally returns
the error "target not found" (contradicting its own documentation
comment), for every server state and every target -- in particular on a
fresh server where no pattern matches the target "foo". -/
theorem Resolve_always_returns_error :
    (New.Resolve { target := "foo" }).1 =
      Except.error { code := Code.unknown, msg := "foo not found" } ∧
    ∀ (s : server) (req : ResolveRequest),
      errCode (s.Resolve req).1 = some Code.unknown ∧ (s.Resolve req).2 = s :=
  ⟨rfl, fun _ _ => ⟨rfl, rfl⟩⟩

/-- Claim C2 counterexample: the dummy emulator is registered and OFFLINE
in s1, yet StopEmulator on its id returns an error instead of
succeeding. -/
theorem StopEmulator_offline_claim_cex :
    mapLookup s1.emulators "dummy" = some (newEmulator dummySpec) ∧
    (newEmulator dummySpec).state = OFFLINE ∧
    errCode (s1.StopEmulator "dummy").1 = some Code.unknown := by
  decide

/-- Claim C2 as amended: StopEmulator on a registered OFFLINE emulator
returns an error (a plain error with no gRPC code, reported as Unknown)
and leaves the registry -- hence the emulator's OFFLINE state and empty
child handle -- unchanged. -/
theorem StopEmulator_offline_is_error_noop (s : server) (specId : String)
    (emu : emulator) (hfound : mapLookup s.emulators specId = some emu)
    (_hoff : emu.state = OFFLINE) :
    errCode (s.StopEmulator specId).1 = some Code.unknown ∧
    (s.StopEmulator specId).2 = s ∧
    mapLookup (s.StopEmulator specId).2.emulators specId = some emu := by
  refine ⟨?_, StopEmulator_preserves s specId, ?_⟩
  · unfold server.StopEmulator
    rw [hfound]
    dsimp only
    rw [stop_always_error emu]
    rfl
  · rw [StopEmulator_preserves]
    exact hfound

/-- Witness for claim C2's amended theorem at the concrete OFFLINE dummy
emulator. -/
theorem StopEmulator_offline_is_error_noop_witness :
    errCode (s1.StopEmulator "dummy").1 = some Code.unknown ∧
    (s1.StopEmulator "dummy").2 = s1 ∧
    mapLookup (s1.StopEmulator "dummy").2.emulators "dummy" =
      some (newEmulator dummySpec) :=
  StopEmulator_offline_is_error_noop s1 "dummy" (newEmulator dummySpec)
    (by decide) (by decide)

/-- Claim C3: in every reachable registry state, an emulator record is
OFFLINE exactly when it has no child process handle.  Records are created
OFFLINE with no handle, a successful start sets the handle together with
STARTING, every failing operation leaves the registry unchanged, and the
stop success path (which would return to OFFLINE without clearing the
handle) is unreachable because its guard always fails. -/
theorem reachable_offline_iff_no_handle (s : server) (hs : Reachable s) :
    ∀ p ∈ s.emulators, (p.2.state = OFFLINE ↔ p.2.cmd = none) := by
  refine reachable_emuPred (fun emu => emu.state = OFFLINE ↔ emu.cmd = none) ?_ ?_ ?_ s hs
  · intro spec
    exact Iff.intro (fun _ => rfl) (fun _ => rfl)
  · intro emu spec h
    exact h
  · intro emu env emu2 hok
    obtain ⟨h1, c, h2⟩ := start_ok_shape emu env emu2 hok
    constructor
    · intro hoff
      rw [h1] at hoff
      exact absurd hoff (by decide)
    · intro hc
      rw [h2] at hc
      exact Option.noConfusion hc

/-- Witness for claim C3 at the reachable state holding the freshly
created dummy emulator. -/
theorem reachable_offline_iff_no_handle_witness :
    (newEmulator dummySpec).state = OFFLINE ↔ (newEmulator dummySpec).cmd = none :=
  reachable_offline_iff_no_handle s1
    (Reachable.createStep New dummyReq Reachable.init)
    ("dummy", newEmulator dummySpec) (by decide)

/-- Claim C4 counterexample: the dummy spec is stored with patterns
pattern1 and pattern2; an update submitting the single pattern newPattern
succeeds, and afterwards the stored patterns are exactly newPattern --
pattern1 has been dropped, so the stored set is not a superset of the
union of the old patterns and the submitted ones. -/
theorem UpdateEmulatorSpec_drops_patterns_cex :
    storedPatterns s1 "dummy" = ["pattern1", "pattern2"] ∧
    updSpec.targetPattern = ["newPattern"] ∧
    errCode (s1.UpdateEmulatorSpec updSpec).1 = none ∧
    storedPatterns s2 "dummy" = ["newPattern"] ∧
    "pattern1" ∉ storedPatterns s2 "dummy" := by
  decide

/-- Claim C4 as amended: a successful UpdateEmulatorSpec replaces the
stored spec wholesale with the submitted one -- the target patterns are
overwritten along with the scalar fields, not merged -- while the record's
state and child handle are kept. -/
theorem UpdateEmulatorSpec_overwrites (s : server) (spec : EmulatorSpec)
    (emu : emulator) (h : mapLookup s.emulators spec.id = some emu) :
    (s.UpdateEmulatorSpec spec).1 = Except.ok spec ∧
    mapLookup (s.UpdateEmulatorSpec spec).2.emulators spec.id =
      some { emu with spec := spec } := by
  unfold server.UpdateEmulatorSpec
  rw [h]
  dsimp only
  exact ⟨rfl, mapLookup_mapUpdate_self h⟩

/-- Witness for claim C4's amended theorem at the concrete dummy update. -/
theorem UpdateEmulatorSpec_overwrites_witness :
    (s1.UpdateEmulatorSpec updSpec).1 = Except.ok updSpec ∧
    mapLookup (s1.UpdateEmulatorSpec updSpec).2.emulators updSpec.id =
      some { newEmulator dummySpec with spec := updSpec } :=
  UpdateEmulatorSpec_overwrites s1 updSpec (newEmulator dummySpec) (by decide)

/-- Claim C5 counterexample: re-creating the dummy spec with the very
request that created it (deep-equal to the stored value) is rejected with
AlreadyExists instead of being a success no-op. -/
theorem CreateEmulatorSpec_identical_cex :
    mapLookup s1.emulators dummyReq.specId = some (newEmulator dummyReq.spec) ∧
    errCode (s1.CreateEmulatorSpec dummyReq).1 = some Code.alreadyExists ∧
    (s1.CreateEmulatorSpec dummyReq).2 = s1 := by
  decide

/-- Claim C5 as amended: creation under an id that already exists always
fails with AlreadyExists and leaves the registry unchanged, whether or not
the submitted value deep-equals the stored one; no identical-value success
no-op exists. -/
theorem CreateEmulatorSpec_existing_always_already_exists (s : server)
    (req : CreateEmulatorSpecRequest) (emu : emulator)
    (h : mapLookup s.emulators req.specId = some emu) :
    errCode (s.CreateEmulatorSpec req).1 = some Code.alreadyExists ∧
    (s.CreateEmulatorSpec req).2 = s := by
  unfold server.CreateEmulatorSpec
  rw [h]
  exact ⟨rfl, rfl⟩

/-- Witness for claim C5's amended theorem: a colliding request whose
value differs from the stored one is likewise rejected. -/
theorem CreateEmulatorSpec_existing_always_already_exists_witness :
    errCode (s1.CreateEmulatorSpec dummyReq2).1 = some Code.alreadyExists ∧
    (s1.CreateEmulatorSpec dummyReq2).2 = s1 :=
  CreateEmulatorSpec_existing_always_already_exists s1 dummyReq2
    (newEmulator dummySpec) (by decide)

/-- Claim C6 counterexample: on a fresh server the id foo is unregistered,
and StartEmulator and StopEmulator both fail with FailedPrecondition,
which is not NotFound; the registry is unchanged. -/
theorem StartStop_missing_not_notFound_cex :
    mapLookup New.emulators "foo" = none ∧
    errCode (New.StartEmulator defaultEnv "foo").1 = some Code.failedPrecondition ∧
    errCode (New.StartEmulator defaultEnv "foo").1 ≠ some Code.notFound ∧
    errCode (New.StopEmulator "foo").1 = some Code.failedPrecondition ∧
    errCode (New.StopEmulator "foo").1 ≠ some Code.notFound ∧
    (New.StartEmulator defaultEnv "foo").2 = New ∧
    (New.StopEmulator "foo").2 = New := by
  decide

/-- Claim C6 as amended: StartEmulator and StopEmulator on an id under
which no emulator is registered both fail with error code
FailedPrecondition (not NotFound), and the registry is unchanged in both
cases. -/
theorem StartStop_missing_failedPrecondition (s : server) (env : SpawnEnv)
    (specId : String) (h : mapLookup s.emulators specId = none) :
    errCode (s.StartEmulator env specId).1 = some Code.failedPrecondition ∧
    (s.StartEmulator env specId).2 = s ∧
    errCode (s.StopEmulator specId).1 = some Code.failedPrecondition ∧
    (s.StopEmulator specId).2 = s := by
  unfold server.StartEmulator server.StopEmulator
  rw [h]
  exact ⟨rfl, rfl, rfl, rfl⟩

/-- Witness for claim C6's amended theorem on a non-empty registry and a
missing id. -/
theorem StartStop_missing_failedPrecondition_witness :
    errCode (s1.StartEmulator defaultEnv "ghost").1 = some Code.failedPrecondition ∧
    (s1.StartEmulator defaultEnv "ghost").2 = s1 ∧
    errCode (s1.StopEmulator "ghost").1 = some Code.failedPrecondition ∧
    (s1.StopEmulator "ghost").2 = s1 :=
  StartStop_missing_failedPrecondition s1 defaultEnv "ghost" (by decide)

/-- Claim C7 counterexample: a request whose id is malformed (my/mistake),
whose single pattern does not compile as a regular expression, and which
has no start command, is accepted by CreateEmulatorSpec and stored, rather
than rejected with InvalidArgument. -/
theorem CreateEmulatorSpec_invalid_accepted_cex :
    (New.CreateEmulatorSpec badReq).1 = Except.ok badSpec ∧
    mapLookup (New.CreateEmulatorSpec badReq).2.emulators "my/mistake" =
      some (newEmulator badSpec) :=
  ⟨rfl, by decide⟩

/-- Claim C7 as amended: CreateEmulatorSpec performs no validation at all.
For any request whose id is not yet registered -- whatever its id shape,
patterns or missing fields -- creation succeeds, echoes the submitted
spec, and stores it. -/
theorem CreateEmulatorSpec_no_validation (s : server)
    (req : CreateEmulatorSpecRequest)
    (h : mapLookup s.emulators req.specId = none) :
    (s.CreateEmulatorSpec req).1 = Except.ok req.spec ∧
    mapLookup (s.CreateEmulatorSpec req).2.emulators req.specId =
      some (newEmulator req.spec) := by
  unfold server.CreateEmulatorSpec
  rw [h]
  dsimp only
  refine ⟨rfl, ?_⟩
  unfold mapLookup
  rw [if_pos rfl]

/-- Witness for claim C7's amended theorem at the dummy request. -/
theorem CreateEmulatorSpec_no_validation_witness :
    (New.CreateEmulatorSpec dummyReq).1 = Except.ok dummyReq.spec ∧
    mapLookup (New.CreateEmulatorSpec dummyReq).2.emulators dummyReq.specId =
      some (newEmulator dummyReq.spec) :=
  CreateEmulatorSpec_no_validation New dummyReq (by decide)

/-- Claim C8: the create/get round trip.  Creating a spec x under its own
id (when the id is free, i.e. the creation succeeds) echoes x, and a
subsequent get on x's id succeeds and returns exactly the submitted value
-- in particular the returned id equals x's id. -/
theorem create_get_round_trip (s : server) (x : EmulatorSpec)
    (req : CreateEmulatorSpecRequest) (hid : req.specId = x.id)
    (hspec : req.spec = x) (h : mapLookup s.emulators x.id = none) :
    (s.CreateEmulatorSpec req).1 = Except.ok x ∧
    ((s.CreateEmulatorSpec req).2.GetEmulatorSpec x.id).1 = Except.ok x := by
  have hcreate : s.CreateEmulatorSpec req =
      (Except.ok x, { emulators := (x.id, newEmulator x) :: s.emulators }) := by
    unfold server.CreateEmulatorSpec
    rw [hid, hspec, h]
  have hlook : mapLookup ((x.id, newEmulator x) :: s.emulators) x.id =
      some (newEmulator x) := by
    unfold mapLookup
    rw [if_pos rfl]
  rw [hcreate]
  refine ⟨rfl, ?_⟩
  unfold server.GetEmulatorSpec
  dsimp only
  rw [hlook]
  rfl

/-- Witness for claim C8 at the dummy spec on a fresh server. -/
theorem create_get_round_trip_witness :
    (New.CreateEmulatorSpec dummyReq).1 = Except.ok dummySpec ∧
    ((New.CreateEmulatorSpec dummyReq).2.GetEmulatorSpec dummySpec.id).1 =
      Except.ok dummySpec :=
  create_get_round_trip New dummySpec dummyReq (by decide) (by decide) (by decide)

/-- Claim C9: the guard of emulator.stop, written `state != STARTING ||
state != ONLINE`, holds for every state value, so StopEmulator on any
registered emulator -- whatever its state -- returns an error and performs
no state transition: the server state is returned unchanged. -/
theorem stop_rejects_every_state :
    (∀ st : String, st ≠ STARTING ∨ st ≠ ONLINE) ∧
    ∀ (s : server) (specId : String) (emu : emulator),
      mapLookup s.emulators specId = some emu →
      errCode (s.StopEmulator specId).1 = some Code.unknown ∧
      (s.StopEmulator specId).2 = s := by
  refine ⟨stop_guard, ?_⟩
  intro s specId emu h
  refine ⟨?_, StopEmulator_preserves s specId⟩
  unfold server.StopEmulator
  rw [h]
  dsimp only
  rw [stop_always_error emu]
  rfl

/-- Witness for claim C9 at a STARTING emulator: even a started emulator
cannot be stopped. -/
theorem stop_rejects_every_state_witness :
    errCode (s1started.StopEmulator "dummy").1 = some Code.unknown ∧
    (s1started.StopEmulator "dummy").2 = s1started :=
  stop_rejects_every_state.2 s1started "dummy" startedDummy (by decide)

/-- Claim C10: no operation ever sets an emulator's state to ONLINE: in
every registry state reachable through any sequence of
CreateEmulatorSpec, GetEmulatorSpec, UpdateEmulatorSpec,
DeleteEmulatorSpec, StartEmulator and StopEmulator calls, every emulator
is OFFLINE or STARTING. -/
theorem reachable_states_offline_or_starting (s : server) (hs : Reachable s) :
    ∀ p ∈ s.emulators, (p.2.state = OFFLINE ∨ p.2.state = STARTING) := by
  refine reachable_emuPred (fun emu => emu.state = OFFLINE ∨ emu.state = STARTING)
    ?_ ?_ ?_ s hs
  · intro spec
    exact Or.inl rfl
  · intro emu spec h
    exact h
  · intro emu env emu2 hok
    exact Or.inr (start_ok_shape emu env emu2 hok).1

/-- Witness for claim C10 at the reachable state in which the dummy
emulator has been started. -/
theorem reachable_states_offline_or_starting_witness :
    startedDummy.state = OFFLINE ∨ startedDummy.state = STARTING :=
  reachable_states_offline_or_starting s1started
    (Reachable.startStep s1 defaultEnv "dummy"
      (Reachable.createStep New dummyReq Reachable.init))
    ("dummy", startedDummy) (by decide)

end Broker
